import Mathlib

/-!
Verification of the llama-api conversational gateway (src/main.py) against its
natural-language specification.

The Python source is shallowly embedded:
* JSON session records (`{"system_prompt": ..., "history": [...]}`) become the
  `ChatData` structure.
* The on-disk history directory becomes an association list `Store` mapping a
  chat id to a `FileContent`: either a record that `json.load` would parse
  (`FileContent.valid`) or bytes on which `json.load` raises
  (`FileContent.corrupt`).
* Fallible Python code (a raised exception) becomes `Except String`.
* The external llama-cli process is abstracted by its observable behaviour
  `ProcBehavior`: the bytes it writes to stdout, its exit code, and its stderr.
-/

namespace LlamaApi

/-- One completed user/assistant exchange, as stored in the `history` list of a
session record (src/main.py line 136 builds `{"user": ..., "assistant": ...}`). -/
structure Turn where
  user : String
  assistant : String
deriving Repr, DecidableEq

/-- A session record as persisted by `save_chat_data` and produced by
`load_chat_data` (src/main.py line 86): an optional system prompt and an
ordered list of turns. -/
structure ChatData where
  system_prompt : Option String
  history : List Turn
deriving Repr, DecidableEq

/-- src/main.py line 29: `MAX_HISTORY_MESSAGES = 10`. -/
def MAX_HISTORY_MESSAGES : Nat := 10

/-- src/main.py line 31: `MAX_TOTAL_CHATS = 100`. -/
def MAX_TOTAL_CHATS : Nat := 100

/-- src/main.py line 28: `HISTORY_DIR = "chat_history"`. -/
def HISTORY_DIR : String := "chat_history"

/-- A validated chat request (src/main.py lines 53-55): the message body and the
session identifier. -/
structure ChatRequest where
  message : String
  chat_id : String
deriving Repr, DecidableEq

/-- The content of one persisted history file, abstracted by how `json.load`
reacts to it: `valid d` is a file that parses to the record `d`; `corrupt` is a
file on which `json.load` raises `JSONDecodeError`. -/
inductive FileContent where
  | valid (data : ChatData)
  | corrupt
deriving Repr, DecidableEq

/-- The history directory `chat_history/`: one entry per file `<id>.json`,
keyed by the chat id. -/
abbrev Store := List (String × FileContent)

/-- Looks up the file for `chat_id` in the directory (`os.path.exists` plus
reading the file). -/
def lookupFile : Store → String → Option FileContent
  | [], _ => none
  | (k, v) :: rest, chat_id => if k = chat_id then some v else lookupFile rest chat_id

/-- Writes the file for `chat_id`, replacing any previous content. -/
def storeSet : Store → String → FileContent → Store
  | [], chat_id, c => [(chat_id, c)]
  | (k, v) :: rest, chat_id, c =>
      if k = chat_id then (chat_id, c) :: rest else (k, v) :: storeSet rest chat_id c

/-- src/main.py lines 81-86, `load_chat_data`: if the history file exists it is
parsed with `json.load` — which RAISES on a malformed file, there is no
try/except around it — otherwise the empty record
`{"system_prompt": None, "history": []}` is returned. -/
def load_chat_data (store : Store) (chat_id : String) : Except String ChatData :=
  match lookupFile store chat_id with
  | none => .ok { system_prompt := none, history := [] }
  | some (.valid d) => .ok d
  | some .corrupt => .error "JSONDecodeError"

/-- src/main.py lines 88-91, `save_chat_data`, at the level of parsed records:
the record for `chat_id` is replaced wholesale. (Byte-level write semantics are
modelled separately by `save_chat_data_bytes` below.) -/
def save_chat_data (store : Store) (chat_id : String) (data : ChatData) : Store :=
  storeSet store chat_id (.valid data)

/-- Python's `l[-n:]` slice (src/main.py lines 99 and 137): the last `n`
elements of `l`, or all of `l` when it is shorter than `n`. -/
def takeLast (n : Nat) (l : List α) : List α := l.drop (l.length - n)

theorem takeLast_length (n : Nat) (l : List α) :
    (takeLast n l).length = min n l.length := by
  simp only [takeLast, List.length_drop]
  omega

theorem takeLast_length_le (n : Nat) (l : List α) : (takeLast n l).length ≤ n := by
  rw [takeLast_length]
  omega

theorem takeLast_of_length_le {n : Nat} {l : List α} (h : l.length ≤ n) :
    takeLast n l = l := by
  have hz : l.length - n = 0 := by omega
  simp [takeLast, hz]

theorem takeLast_append_of_le {n : Nat} (l : List α) {m : List α} (h : n ≤ m.length) :
    takeLast n (l ++ m) = takeLast n m := by
  unfold takeLast
  rw [List.drop_append_eq_append_drop, List.length_append]
  have h1 : l.length ≤ l.length + m.length - n := by omega
  rw [List.drop_eq_nil_of_le h1, List.nil_append]
  congr 1
  omega

theorem takeLast_takeLast_append (n : Nat) (l m : List α) :
    takeLast n (takeLast n l ++ m) = takeLast n (l ++ m) := by
  rcases le_or_lt l.length n with h | h
  · rw [takeLast_of_length_le h]
  · unfold takeLast
    simp only [List.length_append, List.length_drop, List.drop_append_eq_append_drop,
      List.drop_drop]
    congr 1 <;> congr 1 <;> omega

/-- Python truthiness of the loaded `system_prompt` (src/main.py line 101,
`if system_prompt:`): `None` and the empty string are both falsy. -/
def spTruthy : Option String → Bool
  | none => false
  | some s => !s.isEmpty

/-- src/main.py line 106: the prompt segment contributed by one stored turn. -/
def humanAssistantSegment (t : Turn) : String :=
  "### Human: " ++ t.user ++ "\n### Assistant: " ++ t.assistant

/-- src/main.py line 107: the final open-ended segment for the new message. -/
def openSegment (message : String) : String :=
  "### Human: " ++ message ++ "\n### Assistant:"

/-- src/main.py lines 100-107: the `prompt_parts` list — the system prompt when
truthy, one segment per (already windowed) turn, then the open segment. -/
def prompt_parts (system_prompt : Option String) (windowed : List Turn)
    (message : String) : List String :=
  (if spTruthy system_prompt then [system_prompt.getD ""] else [])
    ++ windowed.map humanAssistantSegment ++ [openSegment message]

/-- src/main.py line 108: `full_prompt = "\n".join(prompt_parts)`. The
PromptAssembler of the spec: takes the system prompt, the already windowed
history, and the new message. -/
def assemblePrompt (system_prompt : Option String) (windowed : List Turn)
    (message : String) : String :=
  String.intercalate "\n" (prompt_parts system_prompt windowed message)

/-- Python's `str.strip()`: remove leading and trailing whitespace
(space, tab, carriage return, newline). -/
def pyStrip (s : String) : String :=
  String.mk
    (((s.toList.dropWhile Char.isWhitespace).reverse.dropWhile Char.isWhitespace).reverse)

/-- The suffix of `l` strictly after the last occurrence of `sep`, or `none`
when `sep` does not occur in `l`. An occurrence found further right (in the
tail) takes precedence, so the result is the suffix after the rightmost
occurrence. -/
def lastOccSuffix (sep : List Char) : List Char → Option (List Char)
  | [] => if sep.isEmpty then some [] else none
  | c :: cs =>
      match lastOccSuffix sep cs with
      | some suf => some suf
      | none =>
          if sep.isPrefixOf (c :: cs) then some ((c :: cs).drop sep.length)
          else none

/-- Python's `s.split(sep)[-1]` for a non-empty separator: the last element of
the split is exactly the suffix of `s` after the last occurrence of `sep`, or
`s` itself when `sep` does not occur. -/
def pySplitLast (sep : String) (s : String) : String :=
  match lastOccSuffix sep.toList s.toList with
  | some suf => String.mk suf
  | none => s

/-- src/main.py line 129: the assistant text is extracted by
`full_response.split("### Assistant:")[-1].strip()` — note the marker is
`"### Assistant:"`, with the `### ` prefix. -/
def extractAssistant (fullResponse : String) : String :=
  pyStrip (pySplitLast "### Assistant:" fullResponse)

/-- Extraction as the spec's words describe it (for comparison with
`extractAssistant`): everything after the last occurrence of the plain
`"Assistant:"` marker, stripped. -/
def specExtractAssistant (fullResponse : String) : String :=
  pyStrip (pySplitLast "Assistant:" fullResponse)

/-- src/main.py lines 123-124: the stderr text is decoded and stripped, then
interpolated into the inline error notice that is yielded to the caller. -/
def errorNotice (stderr : String) : String :=
  "\n\n[ERROR] Model execution failed. Details:\n" ++ pyStrip stderr ++ "\n"

/-- src/main.py lines 113-119: stdout is read and yielded one byte at a time;
the emitted sequence for a fully consumed stream is one chunk per character of
the process's stdout. -/
def tokenize (stdout : String) : List String :=
  stdout.toList.map (fun c => String.singleton c)

/-- Observable behaviour of one run of the external generation process: the
bytes it writes to stdout before exiting, its exit status, and its stderr. -/
structure ProcBehavior where
  stdout : String
  exitCode : Int
  stderr : String
deriving Repr, DecidableEq

/-- Outcome of one generation, following the spec's taxonomy: `failed` carries
the stripped stderr text, `emptyResult` marks a successful exit whose extracted
assistant text is empty, `delivered` carries the persisted assistant text. -/
inductive Outcome where
  | failed (stderrText : String)
  | emptyResult
  | delivered (assistant : String)
deriving Repr, DecidableEq

/-- Everything observable about one complete (uncancelled) run of
`stream_llama_response`: the prompt handed to the process, the chunks yielded
to the caller, the history directory after the generator finishes, and the
outcome. -/
structure StreamResult where
  prompt : String
  emitted : List String
  finalStore : Store
  outcome : Outcome
deriving Repr, DecidableEq

/-- src/main.py lines 134-138: the finalize step, run under the session lock —
re-load the record, append the new turn, truncate to the last
`MAX_HISTORY_MESSAGES`, save. Fails only if `load_chat_data` raises on a
corrupt record. -/
def persistTurn (store : Store) (chat_id message assistant : String) :
    Except String Store :=
  match load_chat_data store chat_id with
  | .error e => .error e
  | .ok final_chat_data =>
      .ok (save_chat_data store chat_id
        { final_chat_data with
          history := takeLast MAX_HISTORY_MESSAGES
            (final_chat_data.history ++ [⟨message, assistant⟩]) })

/-- Iterated finalize steps: each turn of the list persisted in order by
`persistTurn`. Models a sequence of successfully completed generations for one
session. -/
def persistTurns (store : Store) (chat_id : String) : List Turn → Except String Store
  | [] => .ok store
  | t :: ts =>
      match persistTurn store chat_id t.user t.assistant with
      | .error e => .error e
      | .ok store' => persistTurns store' chat_id ts

/-- src/main.py lines 94-139, `stream_llama_response`, for a run whose output
is fully consumed by the caller. The external process is abstracted by `proc`.
Because the session lock is released while the process runs, the store may be
mutated concurrently between the initial read and the finalize step: `store`
is the directory contents at the initial locked read (line 97) and
`storeAtFinalize` the contents at the locked re-read (line 135). An `.error`
value models an exception propagating out of the generator (a corrupt record
hit by `json.load`). -/
def stream_llama_response (req : ChatRequest) (proc : ProcBehavior)
    (store storeAtFinalize : Store) : Except String StreamResult :=
  match load_chat_data store req.chat_id with
  | .error e => .error e
  | .ok chat_data =>
      let system_prompt := chat_data.system_prompt
      let chat_history := takeLast MAX_HISTORY_MESSAGES chat_data.history
      let full_prompt := assemblePrompt system_prompt chat_history req.message
      let emittedTokens := tokenize proc.stdout
      if proc.exitCode ≠ 0 then
        .ok { prompt := full_prompt
              emitted := emittedTokens ++ [errorNotice proc.stderr]
              finalStore := storeAtFinalize
              outcome := .failed (pyStrip proc.stderr) }
      else
        let assistant_response := extractAssistant proc.stdout
        if assistant_response = "" then
          .ok { prompt := full_prompt
                emitted := emittedTokens
                finalStore := storeAtFinalize
                outcome := .emptyResult }
        else
          match persistTurn storeAtFinalize req.chat_id req.message assistant_response with
          | .error e => .error e
          | .ok store' =>
              .ok { prompt := full_prompt
                    emitted := emittedTokens
                    finalStore := store'
                    outcome := .delivered assistant_response }

/-- src/main.py lines 160-166, the admission check at the top of the `chat`
endpoint: `is_new_chat` is the non-existence of the history file; for a new
chat, the request is rejected when `len(os.listdir(HISTORY_DIR))` — the number
of entries in the history directory — has reached `MAX_TOTAL_CHATS`. The check
performs no write, so the store is unchanged whatever the branch. -/
def chat_admission (store : Store) (chat_id : String) : Except String Unit :=
  let is_new_chat := (lookupFile store chat_id).isNone
  if is_new_chat then
    if MAX_TOTAL_CHATS ≤ store.length then .error "CapacityExceeded" else .ok ()
  else
    .ok ()

/-- One character of the `SafeChatID` character class `[a-zA-Z0-9_-]`
(src/main.py line 51). -/
def safeChar (c : Char) : Bool :=
  ('a' ≤ c && c ≤ 'z') || ('A' ≤ c && c ≤ 'Z') || ('0' ≤ c && c ≤ '9')
    || c = '_' || c = '-'

/-- src/main.py line 51, `SafeChatID`: length between 1 and 50 and every
character matching `[a-zA-Z0-9_-]`. -/
def validChatID (chat_id : String) : Bool :=
  1 ≤ chat_id.length && chat_id.length ≤ 50 && chat_id.toList.all safeChar

/-- POSIX `os.path.join` for two components where the first does not end in a
separator: an absolute second component replaces the first, otherwise the
components are joined with `"/"`. -/
def osPathJoin (a b : String) : String :=
  if b.toList.head? = some '/' then b else a ++ "/" ++ b

/-- src/main.py lines 78-79, `get_sanitized_history_path`:
`os.path.join(HISTORY_DIR, f"{chat_id}.json")`. -/
def get_sanitized_history_path (chat_id : String) : String :=
  osPathJoin HISTORY_DIR (chat_id ++ ".json")

/-- Everything observable about a run of `stream_llama_response` that the
caller abandons after consuming `k` chunks: the chunks delivered before the
disconnect, whether the generator sent any kill/terminate signal to the
external process before going away, and the history directory when the
generator is closed. -/
structure CancelResult where
  emitted : List String
  killSignalSent : Bool
  finalStore : Store
deriving Repr, DecidableEq

/-- src/main.py lines 94-139 under caller cancellation: when the client
disconnects after `k` chunks, the async generator is closed and `GeneratorExit`
is raised at the paused `yield` (line 119). The generator body contains no
`try`/`finally` and no `except` handler, so no statement after the yield runs:
the code reaches neither `process.wait()` nor the finalize block, and it never
calls `process.kill()` or `process.terminate()` anywhere — `killSignalSent` is
therefore `false` by the text of the source. No save occurs, so the store at
close is returned unchanged. -/
def stream_llama_response_cancelled (req : ChatRequest) (proc : ProcBehavior)
    (store storeAtClose : Store) (k : Nat) : Except String CancelResult :=
  match load_chat_data store req.chat_id with
  | .error e => .error e
  | .ok _chat_data =>
      .ok { emitted := (tokenize proc.stdout).take k
            killSignalSent := false
            finalStore := storeAtClose }

/-- JSON string escaping as `json.dump` performs it for the common escapes
(backslash, quote, newline, tab, carriage return); other characters are
written verbatim. -/
def jsonEscapeChar (c : Char) : String :=
  if c = '\\' then "\\\\"
  else if c = '\"' then "\\\""
  else if c = '\n' then "\\n"
  else if c = '\t' then "\\t"
  else if c = '\r' then "\\r"
  else String.singleton c

/-- A JSON string literal. -/
def jsonStr (s : String) : String :=
  "\"" ++ String.join (s.toList.map jsonEscapeChar) ++ "\""

/-- One element of the `history` array as `json.dump(..., indent=2)` renders
it (nested two levels deep). -/
def jsonTurn (t : Turn) : String :=
  "    \x7b\n      \"user\": " ++ jsonStr t.user ++ ",\n      \"assistant\": "
    ++ jsonStr t.assistant ++ "\n    \x7d"

/-- The `history` array as `json.dump(..., indent=2)` renders it. -/
def jsonHistory (h : List Turn) : String :=
  if h.isEmpty then "[]"
  else "[\n" ++ String.intercalate ",\n" (h.map jsonTurn) ++ "\n  ]"

/-- The full record as `json.dump(data, f, indent=2)` writes it
(src/main.py line 91); key order follows the construction order of the dict
(`system_prompt` then `history`, src/main.py line 86). -/
def serializeChatData (d : ChatData) : String :=
  "\x7b\n  \"system_prompt\": "
    ++ (match d.system_prompt with | none => "null" | some s => jsonStr s)
    ++ ",\n  \"history\": " ++ jsonHistory d.history ++ "\n\x7d"

/-- src/main.py lines 88-91 at the byte level: `open(history_file, "w")`
truncates the file in place — there is no temporary file and no atomic
rename — and `json.dump` then writes the serialized record sequentially into
the same file. `failAfter = none` is a write that completes; `failAfter =
some k` is an I/O error raised after `k` bytes have been written, leaving the
file holding exactly those `k` bytes. `oldContent` is the file's content
before the call; it is discarded by the truncation in every branch. -/
def save_chat_data_bytes (oldContent : String) (d : ChatData)
    (failAfter : Option Nat) : String :=
  match failAfter with
  | none => serializeChatData d
  | some k => (serializeChatData d).take k

/-- A concrete sequence of eleven turns (one more than the window), used to
exercise the window invariant on an explicit input. -/
def c2turns : List Turn :=
  (List.range 11).map (fun i => ⟨Nat.repr i, "r"⟩)

/-- A concrete history directory holding exactly `MAX_TOTAL_CHATS` session
files, used to exercise the capacity cap on an explicit input. -/
def c6store : Store :=
  (List.range 100).map (fun i => (Nat.repr i, FileContent.valid ⟨none, []⟩))

/-!
Shared lemmas about the store and the finalize step.
-/

theorem lookupFile_storeSet_self (s : Store) (chat_id : String) (c : FileContent) :
    lookupFile (storeSet s chat_id c) chat_id = some c := by
  induction s with
  | nil => simp [storeSet, lookupFile]
  | cons hd tl ih =>
      obtain ⟨k, v⟩ := hd
      by_cases h : k = chat_id
      · simp [storeSet, lookupFile, h]
      · simp [storeSet, lookupFile, h, ih]

theorem load_save_chat_data (s : Store) (chat_id : String) (d : ChatData) :
    load_chat_data (save_chat_data s chat_id d) chat_id = .ok d := by
  simp [load_chat_data, save_chat_data, lookupFile_storeSet_self]

theorem persistTurn_of_load (s : Store) (chat_id u a : String) (d : ChatData)
    (h : load_chat_data s chat_id = .ok d) :
    persistTurn s chat_id u a = .ok (save_chat_data s chat_id
      ⟨d.system_prompt, takeLast MAX_HISTORY_MESSAGES (d.history ++ [⟨u, a⟩])⟩) := by
  simp [persistTurn, h]

theorem persistTurn_ok_inv {s : Store} {chat_id u a : String} {s' : Store}
    (h : persistTurn s chat_id u a = .ok s') :
    ∃ d, load_chat_data s chat_id = .ok d ∧
      s' = save_chat_data s chat_id
        ⟨d.system_prompt, takeLast MAX_HISTORY_MESSAGES (d.history ++ [⟨u, a⟩])⟩ := by
  unfold persistTurn at h
  cases hl : load_chat_data s chat_id with
  | error e => rw [hl] at h; exact Except.noConfusion h
  | ok d =>
      rw [hl] at h
      refine ⟨d, rfl, ?_⟩
      injection h with h'
      rw [← h']

theorem persistTurns_ok (chat_id : String) :
    ∀ (ts : List Turn) (s : Store) (d : ChatData),
      load_chat_data s chat_id = .ok d → ts ≠ [] →
      ∃ s', persistTurns s chat_id ts = .ok s' ∧
        load_chat_data s' chat_id
          = .ok ⟨d.system_prompt, takeLast MAX_HISTORY_MESSAGES (d.history ++ ts)⟩ := by
  intro ts
  induction ts with
  | nil => intro s d _ hne; exact absurd rfl hne
  | cons t ts ih =>
      intro s d hload _
      have hstep := persistTurn_of_load s chat_id t.user t.assistant d hload
      rcases eq_or_ne ts [] with rfl | hts
      · exact ⟨_, by simp [persistTurns, hstep], load_save_chat_data s chat_id _⟩
      · have hload₁ := load_save_chat_data s chat_id
          ⟨d.system_prompt, takeLast MAX_HISTORY_MESSAGES (d.history ++ [t])⟩
        obtain ⟨s', hps, hl⟩ := ih _ _ hload₁ hts
        refine ⟨s', ?_, ?_⟩
        · simp only [persistTurns, hstep]
          exact hps
        · rw [hl]
          have hh : takeLast MAX_HISTORY_MESSAGES
                (takeLast MAX_HISTORY_MESSAGES (d.history ++ [t]) ++ ts)
              = takeLast MAX_HISTORY_MESSAGES (d.history ++ t :: ts) := by
            rw [takeLast_takeLast_append, List.append_assoc, List.singleton_append]
          exact congrArg Except.ok (congrArg (ChatData.mk d.system_prompt) hh)

theorem string_length_take (s : String) (k : Nat) :
    (s.take k).length = min k s.length := by
  rw [String.take_eq]
  show (s.data.take k).length = min k s.data.length
  exact List.length_take k s.data

/-!
Claim theorems.
-/

/-- C1: if the generation process exits with non-zero status, the emitted byte
sequence is the streamed stdout followed by one final inline error notice that
contains the process's (stripped) stderr text, the outcome is
`Failed(stderrText)`, and no turn is persisted: the store after the call is
exactly the store before it. -/
theorem failed_generation_inline_error_no_persist
    (req : ChatRequest) (proc : ProcBehavior) (store storeAtFinalize : Store)
    (res : StreamResult)
    (h : stream_llama_response req proc store storeAtFinalize = .ok res)
    (hexit : proc.exitCode ≠ 0) :
    res.emitted = tokenize proc.stdout ++ [errorNotice proc.stderr]
      ∧ res.finalStore = storeAtFinalize
      ∧ res.outcome = .failed (pyStrip proc.stderr)
      ∧ ∃ pre post, errorNotice proc.stderr = pre ++ pyStrip proc.stderr ++ post := by
  unfold stream_llama_response at h
  cases hl : load_chat_data store req.chat_id with
  | error e => rw [hl] at h; exact Except.noConfusion h
  | ok d =>
      rw [hl] at h
      simp only [if_pos hexit] at h
      injection h with h
      subst h
      exact ⟨rfl, rfl, rfl, "\n\n[ERROR] Model execution failed. Details:\n", "\n", rfl⟩

/-- Witness for `failed_generation_inline_error_no_persist` at the scenario of
the spec: empty store, message `"hello"`, process exits 1 with stderr
`"oom"`. -/
theorem failed_generation_inline_error_no_persist_witness :
    (StreamResult.mk (assemblePrompt none [] "hello") [errorNotice "oom"] []
        (.failed (pyStrip "oom"))).emitted = tokenize "" ++ [errorNotice "oom"]
      ∧ (StreamResult.mk (assemblePrompt none [] "hello") [errorNotice "oom"] []
          (.failed (pyStrip "oom"))).finalStore = ([] : Store)
      ∧ (StreamResult.mk (assemblePrompt none [] "hello") [errorNotice "oom"] []
          (.failed (pyStrip "oom"))).outcome = .failed (pyStrip "oom")
      ∧ ∃ pre post, errorNotice "oom" = pre ++ pyStrip "oom" ++ post :=
  failed_generation_inline_error_no_persist ⟨"hello", "abc"⟩ ⟨"", 1, "oom"⟩ [] []
    (StreamResult.mk (assemblePrompt none [] "hello") [errorNotice "oom"] []
      (.failed (pyStrip "oom")))
    (by rfl) (by decide)

/-- C2: (window invariant) for any session, any starting store and any
sequence of more than `MAX_HISTORY_MESSAGES` successfully persisted turns, the
record loaded after the final write has a history of length exactly
`MAX_HISTORY_MESSAGES` equal to the last `MAX_HISTORY_MESSAGES` appended turns
in their original order; moreover after any single persisted write the loaded
history never exceeds `MAX_HISTORY_MESSAGES`. -/
theorem window_invariant :
    (∀ (store : Store) (chat_id : String) (ts : List Turn) (store' : Store),
        persistTurns store chat_id ts = .ok store' →
        MAX_HISTORY_MESSAGES < ts.length →
        ∃ sp, load_chat_data store' chat_id
            = .ok ⟨sp, takeLast MAX_HISTORY_MESSAGES ts⟩
          ∧ (takeLast MAX_HISTORY_MESSAGES ts).length = MAX_HISTORY_MESSAGES)
    ∧ (∀ (store : Store) (chat_id u a : String) (store' : Store) (d' : ChatData),
        persistTurn store chat_id u a = .ok store' →
        load_chat_data store' chat_id = .ok d' →
        d'.history.length ≤ MAX_HISTORY_MESSAGES) := by
  constructor
  · intro store chat_id ts store' hps hlen
    cases ts with
    | nil => exact absurd hlen (by simp)
    | cons t ts =>
        have hload0 : ∃ d, load_chat_data store chat_id = .ok d := by
          unfold persistTurns at hps
          cases hl : persistTurn store chat_id t.user t.assistant with
          | error e => rw [hl] at hps; exact Except.noConfusion hps
          | ok s1 =>
              obtain ⟨d, hd, -⟩ := persistTurn_ok_inv hl
              exact ⟨d, hd⟩
        obtain ⟨d, hd⟩ := hload0
        obtain ⟨s', hps', hl'⟩ := persistTurns_ok chat_id (t :: ts) store d hd (by simp)
        rw [hps] at hps'
        injection hps' with he
        subst he
        rw [takeLast_append_of_le d.history (Nat.le_of_lt hlen)] at hl'
        refine ⟨d.system_prompt, hl', ?_⟩
        rw [takeLast_length]
        exact Nat.min_eq_left (Nat.le_of_lt hlen)
  · intro store chat_id u a store' d' hpt hld
    obtain ⟨d, hd, rfl⟩ := persistTurn_ok_inv hpt
    rw [load_save_chat_data] at hld
    injection hld with he
    rw [← he]
    exact takeLast_length_le _ _

/-- Witness for `window_invariant`: eleven turns appended to the empty store
for session `"abc"` leave exactly the last ten; a single persisted write
leaves a history of length one. -/
theorem window_invariant_witness :
    (∃ sp, load_chat_data
          [("abc", FileContent.valid ⟨none, takeLast MAX_HISTORY_MESSAGES c2turns⟩)]
          "abc"
        = .ok ⟨sp, takeLast MAX_HISTORY_MESSAGES c2turns⟩
      ∧ (takeLast MAX_HISTORY_MESSAGES c2turns).length = MAX_HISTORY_MESSAGES)
    ∧ (ChatData.mk none [⟨"u", "a"⟩]).history.length ≤ MAX_HISTORY_MESSAGES :=
  ⟨window_invariant.1 [] "abc" c2turns
      [("abc", FileContent.valid ⟨none, takeLast MAX_HISTORY_MESSAGES c2turns⟩)]
      (by rfl) (by decide),
   window_invariant.2 [] "abc" "u" "a"
      [("abc", FileContent.valid ⟨none, [⟨"u", "a"⟩]⟩)] ⟨none, [⟨"u", "a"⟩]⟩
      (by rfl) (by rfl)⟩

/-- C3 counterexample: the assembled prompt for an empty store and message
`"hello"` is `"### Human: hello\n### Assistant:"`, not the claimed
`"Human: hello\nAssistant:"` — the code's two-role template carries a
`"### "` prefix (src/main.py lines 106-107). -/
theorem prompt_template_counterexample :
    assemblePrompt none [] "hello" = "### Human: hello\n### Assistant:"
      ∧ assemblePrompt none [] "hello" ≠ "Human: hello\nAssistant:" := by
  exact ⟨rfl, by decide⟩

/-- C3 amended: the assembled prompt is the newline-join of the system prompt
(when truthy) first, then one `"### Human: <user>\n### Assistant: <assistant>"`
segment per windowed turn, then a final open `"### Human: <msg>\n### Assistant:"`
segment; the two scenarios of the spec hold with the `"### "` prefix added to
both role markers. -/
theorem prompt_assembly_amended :
    assemblePrompt none [] "hello" = "### Human: hello\n### Assistant:"
      ∧ assemblePrompt (some "Be terse.") [⟨"hi", "hey"⟩] "how are you"
          = "Be terse.\n### Human: hi\n### Assistant: hey\n### Human: how are you\n### Assistant:"
      ∧ (∀ (windowed : List Turn) (message : String),
          assemblePrompt none windowed message
            = String.intercalate "\n"
                (windowed.map humanAssistantSegment ++ [openSegment message]))
      ∧ (∀ (sp : String) (windowed : List Turn) (message : String),
          assemblePrompt (some sp) windowed message
            = String.intercalate "\n"
                ((if sp.isEmpty then [] else [sp])
                  ++ windowed.map humanAssistantSegment ++ [openSegment message]))
      ∧ (∀ t : Turn, humanAssistantSegment t
            = "### Human: " ++ t.user ++ "\n### Assistant: " ++ t.assistant)
      ∧ (∀ message : String, openSegment message
            = "### Human: " ++ message ++ "\n### Assistant:") := by
  refine ⟨rfl, rfl, fun w m => rfl, fun sp w m => ?_, fun t => rfl, fun m => rfl⟩
  by_cases h : sp.isEmpty <;>
    simp [assemblePrompt, prompt_parts, spTruthy, h]

/-- C4 counterexample: for a session whose on-disk record is corrupt,
`load_chat_data` raises the JSON decode error to the caller instead of
returning the empty record — src/main.py lines 83-85 have no try/except around
`json.load`. -/
theorem load_corrupt_counterexample :
    load_chat_data [("abc", FileContent.corrupt)] "abc" = .error "JSONDecodeError"
      ∧ load_chat_data [("abc", FileContent.corrupt)] "abc"
          ≠ .ok ⟨none, []⟩ := by
  refine ⟨rfl, fun h => ?_⟩
  exact Except.noConfusion h

/-- C4 amended: `load` returns the empty record `⟨none, []⟩` when no record
exists for the id, but when the stored record is corrupt the parse failure
propagates to the caller instead of being masked as empty. -/
theorem load_missing_empty_corrupt_raises :
    ∀ (store : Store) (chat_id : String),
      (lookupFile store chat_id = none →
        load_chat_data store chat_id = .ok ⟨none, []⟩)
      ∧ (lookupFile store chat_id = some .corrupt →
        load_chat_data store chat_id = .error "JSONDecodeError") := by
  intro store chat_id
  constructor <;> intro h <;> simp [load_chat_data, h]

/-- Witness for `load_missing_empty_corrupt_raises`: a store holding one
corrupt record for `"abc"` — loading `"ghost"` gives the empty record, loading
`"abc"` raises. -/
theorem load_missing_empty_corrupt_raises_witness :
    load_chat_data [("abc", FileContent.corrupt)] "ghost" = .ok ⟨none, []⟩
      ∧ load_chat_data [("abc", FileContent.corrupt)] "abc"
          = .error "JSONDecodeError" :=
  ⟨(load_missing_empty_corrupt_raises [("abc", FileContent.corrupt)] "ghost").1 (by rfl),
   (load_missing_empty_corrupt_raises [("abc", FileContent.corrupt)] "abc").2 (by rfl)⟩

/-- C5 counterexample: the extraction marker in the code is
`"### Assistant:"`, not `"Assistant:"`: on a zero-exit run whose accumulated
output is `"Assistant: hi"` the code delivers (and persists) the whole string
`"Assistant: hi"`, whereas taking everything after the last `"Assistant:"`
marker as the claim states would give `"hi"`. -/
theorem extraction_marker_counterexample :
    (stream_llama_response ⟨"hello", "abc"⟩ ⟨"Assistant: hi", 0, ""⟩ [] []).map
        StreamResult.outcome = .ok (.delivered "Assistant: hi")
      ∧ specExtractAssistant "Assistant: hi" = "hi"
      ∧ Outcome.delivered "Assistant: hi" ≠ Outcome.delivered "hi" := by
  refine ⟨by rfl, by decide, by decide⟩

/-- C5 amended: on zero exit the assistant contribution is everything after
the last occurrence of the `"### Assistant:"` marker in the accumulated text,
trimmed; if that extraction is empty the outcome is `EmptyResult` and the
store is left exactly as it was (no turn persisted); otherwise the outcome
delivers the extracted text. -/
theorem extraction_and_empty_result
    (req : ChatRequest) (proc : ProcBehavior) (store storeAtFinalize : Store)
    (res : StreamResult)
    (h : stream_llama_response req proc store storeAtFinalize = .ok res)
    (hexit : proc.exitCode = 0) :
    extractAssistant proc.stdout
        = pyStrip (pySplitLast "### Assistant:" proc.stdout)
      ∧ (extractAssistant proc.stdout = "" →
          res.outcome = .emptyResult ∧ res.finalStore = storeAtFinalize)
      ∧ (extractAssistant proc.stdout ≠ "" →
          res.outcome = .delivered (extractAssistant proc.stdout)) := by
  unfold stream_llama_response at h
  cases hl : load_chat_data store req.chat_id with
  | error e => rw [hl] at h; exact Except.noConfusion h
  | ok d =>
      rw [hl] at h
      have hne : ¬ (proc.exitCode ≠ 0) := by simp [hexit]
      simp only [if_neg hne] at h
      by_cases hempty : extractAssistant proc.stdout = ""
      · simp only [if_pos hempty] at h
        injection h with h
        subst h
        exact ⟨rfl, fun _ => ⟨rfl, rfl⟩, fun hc => absurd hempty hc⟩
      · simp only [if_neg hempty] at h
        cases hp : persistTurn storeAtFinalize req.chat_id req.message
            (extractAssistant proc.stdout) with
        | error e => rw [hp] at h; exact Except.noConfusion h
        | ok s' =>
            rw [hp] at h
            injection h with h
            subst h
            exact ⟨rfl, fun he => absurd he hempty, fun _ => rfl⟩

/-- Witness for `extraction_and_empty_result`: a zero-exit run whose stdout
is whitespace only — extraction is empty, the outcome is `EmptyResult`, and a
pre-existing store is untouched. -/
theorem extraction_and_empty_result_witness :
    extractAssistant "### Assistant:  \n"
        = pyStrip (pySplitLast "### Assistant:" "### Assistant:  \n")
      ∧ (extractAssistant "### Assistant:  \n" = "" →
          (StreamResult.mk (assemblePrompt none [] "hi")
              (tokenize "### Assistant:  \n")
              [("abc", FileContent.valid ⟨none, []⟩)] .emptyResult).outcome
              = .emptyResult
            ∧ (StreamResult.mk (assemblePrompt none [] "hi")
                (tokenize "### Assistant:  \n")
                [("abc", FileContent.valid ⟨none, []⟩)] .emptyResult).finalStore
              = [("abc", FileContent.valid ⟨none, []⟩)])
      ∧ (extractAssistant "### Assistant:  \n" ≠ "" →
          (StreamResult.mk (assemblePrompt none [] "hi")
              (tokenize "### Assistant:  \n")
              [("abc", FileContent.valid ⟨none, []⟩)] .emptyResult).outcome
            = .delivered (extractAssistant "### Assistant:  \n")) :=
  extraction_and_empty_result ⟨"hi", "abc"⟩ ⟨"### Assistant:  \n", 0, ""⟩
    [] [("abc", FileContent.valid ⟨none, []⟩)]
    (StreamResult.mk (assemblePrompt none [] "hi") (tokenize "### Assistant:  \n")
      [("abc", FileContent.valid ⟨none, []⟩)] .emptyResult)
    (by rfl) (by rfl)

/-- C6: when the history directory holds exactly `MAX_TOTAL_CHATS` session
files, a chat request for an id with no existing record is rejected with the
capacity error before any state is mutated (the admission check performs no
write, so the count is unchanged), while a request for an id with an existing
record passes the admission check. -/
theorem capacity_cap_enforced
    (store : Store) (chat_id : String)
    (hlen : store.length = MAX_TOTAL_CHATS) :
    (lookupFile store chat_id = none →
        chat_admission store chat_id = .error "CapacityExceeded")
      ∧ (∀ c, lookupFile store chat_id = some c →
        chat_admission store chat_id = .ok ()) := by
  constructor
  · intro h
    simp [chat_admission, h, hlen]
  · intro c h
    simp [chat_admission, h]

/-- Witness for `capacity_cap_enforced`: a directory with one hundred session
files rejects the fresh id `"zz"` and admits the existing id `"5"`. -/
theorem capacity_cap_enforced_witness :
    (lookupFile c6store "zz" = none →
        chat_admission c6store "zz" = .error "CapacityExceeded")
      ∧ (∀ c, lookupFile c6store "zz" = some c →
        chat_admission c6store "zz" = .ok ()) :=
  capacity_cap_enforced c6store "zz" (by rfl)

set_option maxRecDepth 4096 in
/-- C7 counterexample: with the previous record for the session on disk and a
write of the new (empty-history) record failing after five bytes, the file is
left holding the five-byte fragment, which is neither the complete old record
nor the complete new one — a truncated state observable by a subsequent
load. -/
theorem save_partial_counterexample :
    save_chat_data_bytes (serializeChatData ⟨none, [⟨"u", "a"⟩]⟩) ⟨none, []⟩
        (some 5) = "\x7b\n  \""
      ∧ save_chat_data_bytes (serializeChatData ⟨none, [⟨"u", "a"⟩]⟩) ⟨none, []⟩
          (some 5) ≠ serializeChatData ⟨none, [⟨"u", "a"⟩]⟩
      ∧ save_chat_data_bytes (serializeChatData ⟨none, [⟨"u", "a"⟩]⟩) ⟨none, []⟩
          (some 5) ≠ serializeChatData ⟨none, []⟩ := by
  refine ⟨by decide, by decide, by decide⟩

/-- C7 amended: the persistence write is not all-or-nothing: save truncates
the file in place and writes the new serialization sequentially, so a
completed write leaves exactly the new serialization while a write failing
after `k` bytes leaves exactly the first `k` bytes of the new serialization —
for `k` below the full length a strictly shorter (truncated) state, with the
previous record already destroyed by the truncation. -/
theorem save_truncate_then_write
    (oldContent : String) (d : ChatData) (k : Nat) :
    save_chat_data_bytes oldContent d none = serializeChatData d
      ∧ save_chat_data_bytes oldContent d (some k) = (serializeChatData d).take k
      ∧ (k < (serializeChatData d).length →
          (save_chat_data_bytes oldContent d (some k)).length
            < (serializeChatData d).length) := by
  refine ⟨rfl, rfl, fun h => ?_⟩
  have hmin := string_length_take (serializeChatData d) k
  show ((serializeChatData d).take k).length < (serializeChatData d).length
  omega

/-- Witness for `save_truncate_then_write` at the empty record and a failure
after five bytes. -/
theorem save_truncate_then_write_witness :
    save_chat_data_bytes "old" ⟨none, []⟩ none = serializeChatData ⟨none, []⟩
      ∧ save_chat_data_bytes "old" ⟨none, []⟩ (some 5)
          = (serializeChatData ⟨none, []⟩).take 5
      ∧ (save_chat_data_bytes "old" ⟨none, []⟩ (some 5)).length
          < (serializeChatData ⟨none, []⟩).length :=
  ⟨(save_truncate_then_write "old" ⟨none, []⟩ 5).1,
   (save_truncate_then_write "old" ⟨none, []⟩ 5).2.1,
   (save_truncate_then_write "old" ⟨none, []⟩ 5).2.2 (by decide)⟩

/-- C8 counterexample: a run abandoned by the caller after one chunk leaves
the store untouched, but the generator sends no kill or terminate signal to
the external process — `killSignalSent` is `false`, falsifying the claim that
the underlying process is terminated and its resources reclaimed on
cancellation (src/main.py lines 111-119 contain no try/finally and the file
contains no `process.kill()` or `process.terminate()` call). -/
theorem cancellation_no_kill_counterexample :
    (stream_llama_response_cancelled ⟨"hello", "abc"⟩ ⟨"tokens", 0, ""⟩ [] [] 1).map
        CancelResult.killSignalSent = .ok false
      ∧ (stream_llama_response_cancelled ⟨"hello", "abc"⟩ ⟨"tokens", 0, ""⟩ [] [] 1).map
          CancelResult.emitted = .ok ["t"]
      ∧ (stream_llama_response_cancelled ⟨"hello", "abc"⟩ ⟨"tokens", 0, ""⟩ [] [] 1).map
          CancelResult.finalStore = .ok [] := by
  refine ⟨by rfl, by rfl, by rfl⟩

/-- C8 amended: when the caller abandons consumption after `k` chunks, no
turn is persisted — the store is exactly the store at close, and only the
first `k` chunks were emitted — but the external generation process is NOT
terminated by the code: the generator has no cancellation cleanup handler and
never sends a kill signal. -/
theorem cancellation_no_persist_no_kill
    (req : ChatRequest) (proc : ProcBehavior) (store storeAtClose : Store)
    (k : Nat) (res : CancelResult)
    (h : stream_llama_response_cancelled req proc store storeAtClose k = .ok res) :
    res.finalStore = storeAtClose
      ∧ res.killSignalSent = false
      ∧ res.emitted = (tokenize proc.stdout).take k := by
  unfold stream_llama_response_cancelled at h
  cases hl : load_chat_data store req.chat_id with
  | error e => rw [hl] at h; exact Except.noConfusion h
  | ok d =>
      rw [hl] at h
      injection h with h
      subst h
      exact ⟨rfl, rfl, rfl⟩

/-- Witness for `cancellation_no_persist_no_kill`: cancellation after one
chunk of a running process. -/
theorem cancellation_no_persist_no_kill_witness :
    (CancelResult.mk ["t"] false []).finalStore = ([] : Store)
      ∧ (CancelResult.mk ["t"] false []).killSignalSent = false
      ∧ (CancelResult.mk ["t"] false []).emitted = (tokenize "tokens").take 1 :=
  cancellation_no_persist_no_kill ⟨"hello", "abc"⟩ ⟨"tokens", 0, ""⟩ [] [] 1
    (CancelResult.mk ["t"] false []) (by rfl)

/-- C9: every chat id accepted by the `SafeChatID` pattern (1-50 characters
from `[a-zA-Z0-9_-]`) produces a history file path strictly inside the
history directory: the path is exactly `HISTORY_DIR ++ "/" ++ filename`, and
the filename `chat_id ++ ".json"` is non-empty, contains no path separator,
and is neither `"."` nor `".."` — so load, save and delete can only touch a
proper entry of the history directory. -/
theorem safe_chat_id_path_confined
    (chat_id : String) (h : validChatID chat_id = true) :
    get_sanitized_history_path chat_id = HISTORY_DIR ++ "/" ++ (chat_id ++ ".json")
      ∧ (∀ c ∈ (chat_id ++ ".json").toList, c ≠ '/')
      ∧ (chat_id ++ ".json") ≠ ""
      ∧ (chat_id ++ ".json") ≠ "."
      ∧ (chat_id ++ ".json") ≠ ".." := by
  simp only [validChatID, Bool.and_eq_true, decide_eq_true_eq, List.all_eq_true] at h
  obtain ⟨⟨h1, h2⟩, h3⟩ := h
  have htl : (chat_id ++ ".json").toList = chat_id.toList ++ ".json".toList := by
    simp [String.toList, String.data_append]
  have hchars : ∀ c ∈ (chat_id ++ ".json").toList, c ≠ '/' := by
    intro c hc
    rw [htl] at hc
    rcases List.mem_append.mp hc with hmem | hmem
    · intro hcc
      subst hcc
      exact absurd (h3 _ hmem) (by decide)
    · have hcs : c = '.' ∨ c = 'j' ∨ c = 's' ∨ c = 'o' ∨ c = 'n' := by
        simpa using hmem
      rcases hcs with rfl | rfl | rfl | rfl | rfl <;> decide
  have hlen6 : 6 ≤ (chat_id ++ ".json").length := by
    have hj : (".json" : String).length = 5 := rfl
    rw [String.length_append, hj]
    omega
  have hdata : chat_id.data ≠ [] := by
    intro hnil
    have hz : chat_id.length = 0 := by simp [String.length, hnil]
    omega
  obtain ⟨c, rest, hd⟩ := List.exists_cons_of_ne_nil hdata
  have hcmem : c ∈ chat_id.toList := by
    show c ∈ chat_id.data
    rw [hd]
    exact List.mem_cons_self c rest
  have hcne : c ≠ '/' := by
    intro hcc
    subst hcc
    exact absurd (h3 _ hcmem) (by decide)
  have hcond : ¬ (chat_id.data.head? = some '/') := by
    rw [hd]
    simp [hcne]
  refine ⟨?_, hchars, ?_, ?_, ?_⟩
  · simp [get_sanitized_history_path, osPathJoin, hcond]
  · intro h0
    rw [h0] at hlen6
    exact absurd hlen6 (by decide)
  · intro h0
    rw [h0] at hlen6
    exact absurd hlen6 (by decide)
  · intro h0
    rw [h0] at hlen6
    exact absurd hlen6 (by decide)

/-- Witness for `safe_chat_id_path_confined` at the accepted id `"abc"`. -/
theorem safe_chat_id_path_confined_witness :
    get_sanitized_history_path "abc" = HISTORY_DIR ++ "/" ++ ("abc" ++ ".json")
      ∧ (∀ c ∈ ("abc" ++ ".json").toList, c ≠ '/')
      ∧ ("abc" ++ ".json") ≠ ""
      ∧ ("abc" ++ ".json") ≠ "."
      ∧ ("abc" ++ ".json") ≠ ".." :=
  safe_chat_id_path_confined "abc" (by decide)

/-- C10: the finalize step re-loads the record from the store under the lock
before appending: if the record was deleted while the lock was released
during generation (the store at finalize has no entry for the id), a
successful non-empty generation still persists its turn, recreating the
record with a null system prompt and exactly the one new turn. -/
theorem finalize_recreates_deleted_record
    (req : ChatRequest) (proc : ProcBehavior) (store storeAtFinalize : Store)
    (res : StreamResult)
    (h : stream_llama_response req proc store storeAtFinalize = .ok res)
    (hexit : proc.exitCode = 0)
    (hne : extractAssistant proc.stdout ≠ "")
    (hdel : lookupFile storeAtFinalize req.chat_id = none) :
    load_chat_data res.finalStore req.chat_id
        = .ok ⟨none, [⟨req.message, extractAssistant proc.stdout⟩]⟩
      ∧ res.outcome = .delivered (extractAssistant proc.stdout) := by
  unfold stream_llama_response at h
  cases hl : load_chat_data store req.chat_id with
  | error e => rw [hl] at h; exact Except.noConfusion h
  | ok d =>
      rw [hl] at h
      have hno : ¬ (proc.exitCode ≠ 0) := by simp [hexit]
      simp only [if_neg hno, if_neg hne] at h
      have hload : load_chat_data storeAtFinalize req.chat_id = .ok ⟨none, []⟩ := by
        simp [load_chat_data, hdel]
      have hp := persistTurn_of_load storeAtFinalize req.chat_id req.message
        (extractAssistant proc.stdout) ⟨none, []⟩ hload
      rw [hp] at h
      injection h with h
      subst h
      exact ⟨load_save_chat_data storeAtFinalize req.chat_id _, rfl⟩

/-- Witness for `finalize_recreates_deleted_record`: both stores empty (record
never existed at finalize time), process succeeds with output
`"### Assistant: hey"` — the record is recreated with the single new turn. -/
theorem finalize_recreates_deleted_record_witness :
    load_chat_data [("abc", FileContent.valid ⟨none, [⟨"hello", "hey"⟩]⟩)] "abc"
        = .ok ⟨none, [⟨"hello", extractAssistant "### Assistant: hey"⟩]⟩
      ∧ (StreamResult.mk (assemblePrompt none [] "hello")
            (tokenize "### Assistant: hey")
            [("abc", FileContent.valid ⟨none, [⟨"hello", "hey"⟩]⟩)]
            (.delivered "hey")).outcome
          = .delivered (extractAssistant "### Assistant: hey") :=
  finalize_recreates_deleted_record ⟨"hello", "abc"⟩ ⟨"### Assistant: hey", 0, ""⟩
    [] []
    (StreamResult.mk (assemblePrompt none [] "hello") (tokenize "### Assistant: hey")
      [("abc", FileContent.valid ⟨none, [⟨"hello", "hey"⟩]⟩)] (.delivered "hey"))
    (by rfl) (by rfl) (by decide) (by rfl)

end LlamaApi
